import Mathlib

/-!
Shallow embedding of `rover.h`: a programmable rover on a discrete 2-D grid
with a cardinal heading, a character-indexed command table, and sensor-gated
moves.  Pure C++ member functions become Lean functions; mutation of a
`Position&` becomes explicit state passing; the two exceptions
(`DangerousField`, `RoverDidNotLand`) become explicit result constructors
that carry the state the reference would hold at the throw site.
-/

namespace RoverModel

/-- `coordinate_t` is `int32_t`; `wrap32` normalises an unbounded integer to
the two's-complement value of its low 32 bits, modelling `int32_t` overflow. -/
def wrap32 (n : Int) : Int := (n + 2 ^ 31) % 2 ^ 32 - 2 ^ 31

/-- `class Coordinates`: a pair of `coordinate_t`. -/
structure Coordinates where
  x : Int
  y : Int
  deriving DecidableEq, Repr

/-- `Coordinates::operator+=`: componentwise `int32_t` addition. -/
def Coordinates.add (c other : Coordinates) : Coordinates :=
  ⟨wrap32 (c.x + other.x), wrap32 (c.y + other.y)⟩

/-- `operator<<(std::ostream&, const Coordinates&)`. -/
def Coordinates.display (c : Coordinates) : String :=
  "(" ++ toString c.x ++ ", " ++ toString c.y ++ ")"

/-- `Sensor::is_safe(coordinate_t, coordinate_t)`: the external predicate. -/
def Sensor : Type := Int → Int → Bool

/-- `sensors_t`. -/
def sensors_t : Type := List Sensor

/-- `enum class Direction`. -/
inductive Direction where
  | NORTH
  | EAST
  | SOUTH
  | WEST
  deriving DecidableEq, Repr

/-- `static_cast<int>(d)`: the underlying enumerator value. -/
def Direction.toIndex : Direction → Nat
  | .NORTH => 0
  | .EAST => 1
  | .SOUTH => 2
  | .WEST => 3

/-- `static_cast<Direction>(n)` for `n` already reduced modulo 4; the final
arm is unreachable on such arguments. -/
def Direction.ofIndex : Nat → Direction
  | 0 => .NORTH
  | 1 => .EAST
  | 2 => .SOUTH
  | 3 => .WEST
  | _ + 4 => .NORTH

/-- `DirectionManager::get_next`: `(index + 1) % DIRECTIONS_NO`. -/
def DirectionManager.get_next (d : Direction) : Direction :=
  Direction.ofIndex ((d.toIndex + 1) % 4)

/-- `DirectionManager::get_move`: the `direction_move` table
`{{0, 1}, {1, 0}, {0, -1}, {-1, 0}}`. -/
def DirectionManager.get_move : Direction → Coordinates
  | .NORTH => ⟨0, 1⟩
  | .EAST => ⟨1, 0⟩
  | .SOUTH => ⟨0, -1⟩
  | .WEST => ⟨-1, 0⟩

/-- `DirectionManager::get_name`: the `direction_name` table. -/
def DirectionManager.get_name : Direction → String
  | .NORTH => "NORTH"
  | .EAST => "EAST"
  | .SOUTH => "SOUTH"
  | .WEST => "WEST"

/-- `class Position`: coordinates plus direction. -/
structure Position where
  coordinates : Coordinates
  direction : Direction
  deriving DecidableEq, Repr

/-- `Position::turn_right`. -/
def Position.turn_right (p : Position) : Position :=
  { p with direction := DirectionManager.get_next p.direction }

/-- `Position::go_forward`. -/
def Position.go_forward (p : Position) : Position :=
  { p with coordinates := p.coordinates.add (DirectionManager.get_move p.direction) }

/-- `Position::is_safe` (via `Coordinates::is_safe`): evaluates the sensor
predicate at the current coordinates. -/
def Position.is_safe (p : Position) (sensor : Sensor) : Bool :=
  sensor p.coordinates.x p.coordinates.y

/-- `operator<<(std::ostream&, const Position&)`. -/
def Position.display (p : Position) : String :=
  p.coordinates.display ++ " " ++ DirectionManager.get_name p.direction

/-- The closed `Action` hierarchy: `RotateLeft`, `RotateRight`, `MoveForward`,
`MoveBackward`, `Compose`. -/
inductive Action where
  | rotateLeft
  | rotateRight
  | moveForward
  | moveBackward
  | compose (actions : List Action)

/-- Result of `Action::execute(Position &p, const sensors_t &)`: `ok p'` is a
normal return leaving the reference equal to `p'`; `danger p'` is a
`DangerousField` throw leaving the reference equal to `p'`. -/
inductive ExecResult where
  | ok (p : Position)
  | danger (p : Position)
  deriving DecidableEq, Repr

mutual

/-- The override of `execute` in each concrete `Action` subclass. -/
def Action.execute : Action → Position → sensors_t → ExecResult
  | .rotateLeft, p, _ => .ok (((p.turn_right).turn_right).turn_right)
  | .rotateRight, p, _ => .ok p.turn_right
  | .moveForward, p, sensors =>
      let new_position := p.go_forward
      if (List.all sensors fun sensor => new_position.is_safe sensor) then
        .ok new_position
      else
        .danger p
  | .moveBackward, p, sensors =>
      let new_position := ((((p.turn_right).turn_right).go_forward).turn_right).turn_right
      if (List.all sensors fun sensor => new_position.is_safe sensor) then
        .ok new_position
      else
        .danger p
  | .compose actions, p, sensors => Action.executeList actions p sensors

/-- The loop body of `Compose::execute`: run the children in order on the same
position reference; a `DangerousField` from a child propagates at once. -/
def Action.executeList : List Action → Position → sensors_t → ExecResult
  | [], p, _ => .ok p
  | a :: rest, p, sensors =>
      match a.execute p sensors with
      | .ok q => Action.executeList rest q sensors
      | .danger q => .danger q

end

/-- `commands_t`: the `std::map<char, Action>` as an association list looked
up with `List.lookup`. -/
def commands_t : Type := List (Char × Action)

/-- `class Rover`. -/
structure Rover where
  landed : Bool
  stopped : Bool
  position : Position
  commands : commands_t
  sensors : sensors_t

/-- The `Rover` constructor used by `RoverBuilder::build`: not yet landed, the
initial position does not matter. -/
def Rover.make (commands : commands_t) (sensors : sensors_t) : Rover :=
  ⟨false, false, ⟨⟨0, 0⟩, Direction.NORTH⟩, commands, sensors⟩

/-- Outcome of `Rover::execute`: `normal r` is a plain return with object
state `r`; `didNotLand r` is a `RoverDidNotLand` throw that propagates to the
caller, with the object state `r` at the throw site. -/
inductive ExecOutcome where
  | normal (r : Rover)
  | didNotLand (r : Rover)

/-- The object state after a call to `Rover::execute`, whichever way the call
ended. -/
def ExecOutcome.state : ExecOutcome → Rover
  | .normal r => r
  | .didNotLand r => r

/-- The `for (const auto &command : command_list)` loop of `Rover::execute`,
together with the surrounding `try`/`catch (DangerousField&)`. -/
def Rover.runCommands : List Char → Rover → Rover
  | [], r => r
  | c :: rest, r =>
      match List.lookup c r.commands with
      | none => { r with stopped := true }
      | some a =>
          match a.execute r.position r.sensors with
          | .ok p => Rover.runCommands rest { r with position := p }
          | .danger p => { r with position := p, stopped := true }

/-- Whether the loop of `Rover::execute` runs the whole string without an
unbound command and without a `DangerousField`. -/
def Rover.runOk : List Char → Rover → Bool
  | [], _ => true
  | c :: rest, r =>
      match List.lookup c r.commands with
      | none => false
      | some a =>
          match a.execute r.position r.sensors with
          | .ok p => Rover.runOk rest { r with position := p }
          | .danger _ => false

/-- `Rover::execute`. -/
def Rover.execute (command_list : String) (r : Rover) : ExecOutcome :=
  if r.landed then
    .normal (Rover.runCommands command_list.toList { r with stopped := false })
  else
    .didNotLand r

/-- `Rover::land`. -/
def Rover.land (coordinates : Coordinates) (direction : Direction) (r : Rover) : Rover :=
  { r with position := ⟨coordinates, direction⟩, landed := true, stopped := false }

/-- `operator<<(std::ostream&, const Rover&)`. -/
def Rover.display (r : Rover) : String :=
  if r.landed then
    r.position.display ++ (if r.stopped then " stopped" else "")
  else
    "unknown"

/-- A call on the rover's public mutating surface. -/
inductive RoverOp where
  | land (coordinates : Coordinates) (direction : Direction)
  | exec (command_list : String)

/-- The rover state after one public call (for `execute`, whichever way the
call ended). -/
def RoverOp.apply : RoverOp → Rover → Rover
  | .land c d, r => Rover.land c d r
  | .exec s, r => (Rover.execute s r).state

/-- The rover state after a sequence of public calls. -/
def RoverOp.applyAll : List RoverOp → Rover → Rover
  | [], r => r
  | op :: ops, r => RoverOp.applyAll ops (op.apply r)

/-- Spec-side model of `MoveBackward` for the refinement claim C5, written
from the spec's words: "translate by the negated unit vector of the current
heading, heading unchanged", gated by the same check of the candidate against
every sensor, failing with `DangerousField` and leaving the position untouched
when any sensor reports the candidate unsafe. -/
def Coordinates.neg (c : Coordinates) : Coordinates := ⟨-c.x, -c.y⟩

/-- Spec-side model of `MoveBackward` for the refinement claim C5 (see
`Coordinates.neg`): the direct negated-vector translation. -/
def moveBackwardSpec (p : Position) (sensors : sensors_t) : ExecResult :=
  let candidate : Position :=
    ⟨p.coordinates.add (Coordinates.neg (DirectionManager.get_move p.direction)), p.direction⟩
  if (List.all sensors fun sensor => candidate.is_safe sensor) then
    .ok candidate
  else
    .danger p

/-!  Helper lemmas shared by the claim theorems.  -/

theorem execute_rotateLeft (p : Position) (sensors : sensors_t) :
    Action.execute Action.rotateLeft p sensors =
      ExecResult.ok (((p.turn_right).turn_right).turn_right) := by
  simp [Action.execute]

theorem execute_rotateRight (p : Position) (sensors : sensors_t) :
    Action.execute Action.rotateRight p sensors = ExecResult.ok p.turn_right := by
  simp [Action.execute]

theorem execute_moveForward (p : Position) (sensors : sensors_t) :
    Action.execute Action.moveForward p sensors =
      if (List.all sensors fun sensor => (p.go_forward).is_safe sensor) then
        ExecResult.ok p.go_forward
      else
        ExecResult.danger p := by
  simp [Action.execute]

theorem execute_moveBackward (p : Position) (sensors : sensors_t) :
    Action.execute Action.moveBackward p sensors =
      if (List.all sensors fun sensor =>
            ((((((p.turn_right).turn_right).go_forward).turn_right).turn_right)).is_safe sensor) then
        ExecResult.ok (((((p.turn_right).turn_right).go_forward).turn_right).turn_right)
      else
        ExecResult.danger p := by
  simp [Action.execute]

theorem execute_compose (actions : List Action) (p : Position) (sensors : sensors_t) :
    Action.execute (Action.compose actions) p sensors =
      Action.executeList actions p sensors := by
  simp [Action.execute]

theorem executeList_nil (p : Position) (sensors : sensors_t) :
    Action.executeList [] p sensors = ExecResult.ok p := by
  simp [Action.executeList]

theorem executeList_cons (a : Action) (rest : List Action) (p : Position)
    (sensors : sensors_t) :
    Action.executeList (a :: rest) p sensors =
      match a.execute p sensors with
      | .ok q => Action.executeList rest q sensors
      | .danger q => .danger q := by
  simp [Action.executeList]

theorem turn_right_four (p : Position) :
    (((p.turn_right).turn_right).turn_right).turn_right = p := by
  obtain ⟨c, d⟩ := p
  cases d <;>
    simp [Position.turn_right, DirectionManager.get_next, Direction.toIndex, Direction.ofIndex]


theorem runCommands_landed (cs : List Char) (r : Rover) :
    (Rover.runCommands cs r).landed = r.landed := by
  induction cs generalizing r with
  | nil => rfl
  | cons c rest ih =>
    simp only [Rover.runCommands]
    split
    · rfl
    · split
      · exact ih _
      · rfl

theorem runCommands_commands (cs : List Char) (r : Rover) :
    (Rover.runCommands cs r).commands = r.commands := by
  induction cs generalizing r with
  | nil => rfl
  | cons c rest ih =>
    simp only [Rover.runCommands]
    split
    · rfl
    · split
      · exact ih _
      · rfl

theorem runCommands_sensors (cs : List Char) (r : Rover) :
    (Rover.runCommands cs r).sensors = r.sensors := by
  induction cs generalizing r with
  | nil => rfl
  | cons c rest ih =>
    simp only [Rover.runCommands]
    split
    · rfl
    · split
      · exact ih _
      · rfl

theorem runCommands_stopped (cs : List Char) (r : Rover) :
    (Rover.runCommands cs r).stopped =
      if Rover.runOk cs r then r.stopped else true := by
  induction cs generalizing r with
  | nil => simp [Rover.runCommands, Rover.runOk]
  | cons c rest ih =>
    rcases hl : List.lookup c r.commands with _ | a
    · simp [Rover.runCommands, Rover.runOk, hl]
    · rcases he : a.execute r.position r.sensors with p | p
      · simp only [Rover.runCommands, Rover.runOk, hl, he]
        exact ih _
      · simp [Rover.runCommands, Rover.runOk, hl, he]

theorem display_ne_unknown (r : Rover) (h : r.landed = true) :
    Rover.display r ≠ "unknown" := by
  intro heq
  have hd : (Rover.display r).data = "unknown".data := congrArg String.data heq
  simp only [Rover.display, h, if_true, Position.display, Coordinates.display,
    String.data_append] at hd
  simp at hd

/-- Claim C6: the successor function `get_next` is the total cyclic function
N→E→S→W→N on the four direction values; applying it four times is the
identity, and no direction outside the four values is representable. -/
theorem direction_next_cyclic (d : Direction) :
    DirectionManager.get_next (DirectionManager.get_next (DirectionManager.get_next
        (DirectionManager.get_next d))) = d
    ∧ DirectionManager.get_next Direction.NORTH = Direction.EAST
    ∧ DirectionManager.get_next Direction.EAST = Direction.SOUTH
    ∧ DirectionManager.get_next Direction.SOUTH = Direction.WEST
    ∧ DirectionManager.get_next Direction.WEST = Direction.NORTH
    ∧ (d = Direction.NORTH ∨ d = Direction.EAST ∨ d = Direction.SOUTH
        ∨ d = Direction.WEST) := by
  cases d <;> decide

/-- Witness for `direction_next_cyclic` at `d = NORTH`. -/
theorem direction_next_cyclic_witness :
    DirectionManager.get_next (DirectionManager.get_next (DirectionManager.get_next
        (DirectionManager.get_next Direction.NORTH))) = Direction.NORTH
    ∧ DirectionManager.get_next Direction.NORTH = Direction.EAST
    ∧ DirectionManager.get_next Direction.EAST = Direction.SOUTH
    ∧ DirectionManager.get_next Direction.SOUTH = Direction.WEST
    ∧ DirectionManager.get_next Direction.WEST = Direction.NORTH
    ∧ (Direction.NORTH = Direction.NORTH ∨ Direction.NORTH = Direction.EAST
        ∨ Direction.NORTH = Direction.SOUTH ∨ Direction.NORTH = Direction.WEST) :=
  direction_next_cyclic Direction.NORTH

/-- Claim C7: on every position and sensor list, `RotateLeft` then `RotateRight`
(in either order) restores the position exactly; each rotation succeeds and
leaves the coordinates untouched. -/
theorem rotate_left_right_inverse (p : Position) (sensors : sensors_t) :
    Action.execute (Action.compose [Action.rotateLeft, Action.rotateRight]) p sensors =
        ExecResult.ok p
    ∧ Action.execute (Action.compose [Action.rotateRight, Action.rotateLeft]) p sensors =
        ExecResult.ok p
    ∧ (∃ q, Action.execute Action.rotateLeft p sensors = ExecResult.ok q
        ∧ q.coordinates = p.coordinates)
    ∧ (∃ q, Action.execute Action.rotateRight p sensors = ExecResult.ok q
        ∧ q.coordinates = p.coordinates) := by
  refine ⟨?_, ?_, ⟨((p.turn_right).turn_right).turn_right, execute_rotateLeft p sensors, ?_⟩,
    ⟨p.turn_right, execute_rotateRight p sensors, ?_⟩⟩
  · simp only [execute_compose, executeList_cons, execute_rotateLeft, execute_rotateRight,
      executeList_nil, turn_right_four]
  · simp only [execute_compose, executeList_cons, execute_rotateRight, execute_rotateLeft,
      executeList_nil, turn_right_four]
  · rfl
  · rfl

/-- Witness for `rotate_left_right_inverse` at the origin facing north with no
sensors. -/
theorem rotate_left_right_inverse_witness :
    Action.execute (Action.compose [Action.rotateLeft, Action.rotateRight])
        ⟨⟨0, 0⟩, Direction.NORTH⟩ [] = ExecResult.ok ⟨⟨0, 0⟩, Direction.NORTH⟩
    ∧ Action.execute (Action.compose [Action.rotateRight, Action.rotateLeft])
        ⟨⟨0, 0⟩, Direction.NORTH⟩ [] = ExecResult.ok ⟨⟨0, 0⟩, Direction.NORTH⟩
    ∧ (∃ q, Action.execute Action.rotateLeft ⟨⟨0, 0⟩, Direction.NORTH⟩ [] = ExecResult.ok q
        ∧ q.coordinates = (⟨⟨0, 0⟩, Direction.NORTH⟩ : Position).coordinates)
    ∧ (∃ q, Action.execute Action.rotateRight ⟨⟨0, 0⟩, Direction.NORTH⟩ [] = ExecResult.ok q
        ∧ q.coordinates = (⟨⟨0, 0⟩, Direction.NORTH⟩ : Position).coordinates) :=
  rotate_left_right_inverse ⟨⟨0, 0⟩, Direction.NORTH⟩ []

/-- Claim C5: `MoveBackward`'s rotate-180°, move-forward, rotate-back derivation is
observably equivalent to the direct negated-vector translation with heading
unchanged, and builds the very same candidate position, so the sensors are
consulted at the same candidate coordinate, on success and on failure alike. -/
theorem moveBackward_refines_negated_translation (p : Position) (sensors : sensors_t) :
    Action.execute Action.moveBackward p sensors = moveBackwardSpec p sensors
    ∧ ((((p.turn_right).turn_right).go_forward).turn_right).turn_right =
        ⟨p.coordinates.add (Coordinates.neg (DirectionManager.get_move p.direction)),
          p.direction⟩ := by
  obtain ⟨c, d⟩ := p
  cases d <;>
    · constructor
      · simp [Action.execute, moveBackwardSpec, Position.turn_right, Position.go_forward,
          Coordinates.add, Coordinates.neg, DirectionManager.get_move,
          DirectionManager.get_next, Direction.toIndex, Direction.ofIndex]
      · simp [Position.turn_right, Position.go_forward, Coordinates.add, Coordinates.neg,
          DirectionManager.get_move, DirectionManager.get_next, Direction.toIndex,
          Direction.ofIndex]

/-- Witness for `moveBackward_refines_negated_translation` at the origin facing
east with one sensor. -/
theorem moveBackward_refines_negated_translation_witness :
    Action.execute Action.moveBackward ⟨⟨0, 0⟩, Direction.EAST⟩ [fun x _ => x ≥ 0] =
        moveBackwardSpec ⟨⟨0, 0⟩, Direction.EAST⟩ [fun x _ => x ≥ 0]
    ∧ (((((⟨⟨0, 0⟩, Direction.EAST⟩ : Position).turn_right).turn_right).go_forward).turn_right).turn_right =
        ⟨(⟨0, 0⟩ : Coordinates).add (Coordinates.neg (DirectionManager.get_move Direction.EAST)),
          Direction.EAST⟩ :=
  moveBackward_refines_negated_translation ⟨⟨0, 0⟩, Direction.EAST⟩ [fun x _ => x ≥ 0]

/-- Claim C2: `MoveForward` and `MoveBackward` compute their candidate position on a
copy, check the candidate against every sensor, fail with `DangerousField`
leaving the caller's position completely unchanged when any sensor reports the
candidate unsafe, and overwrite the caller's position with the candidate
exactly when all sensors pass. -/
theorem move_actions_atomic (p : Position) (sensors : sensors_t) :
    (Action.execute Action.moveForward p sensors =
      if (List.all sensors fun sensor => (p.go_forward).is_safe sensor) then
        ExecResult.ok p.go_forward
      else
        ExecResult.danger p)
    ∧ (Action.execute Action.moveBackward p sensors =
      if (List.all sensors fun sensor =>
            (((((p.turn_right).turn_right).go_forward).turn_right).turn_right).is_safe sensor) then
        ExecResult.ok ((((p.turn_right).turn_right).go_forward).turn_right).turn_right
      else
        ExecResult.danger p)
    ∧ (∀ q, Action.execute Action.moveForward p sensors = ExecResult.danger q → q = p)
    ∧ (∀ q, Action.execute Action.moveBackward p sensors = ExecResult.danger q → q = p)
    ∧ (∀ q, Action.execute Action.moveForward p sensors = ExecResult.ok q →
        q = p.go_forward ∧ (List.all sensors fun sensor => q.is_safe sensor) = true)
    ∧ (∀ q, Action.execute Action.moveBackward p sensors = ExecResult.ok q →
        q = ((((p.turn_right).turn_right).go_forward).turn_right).turn_right
          ∧ (List.all sensors fun sensor => q.is_safe sensor) = true) := by
  refine ⟨execute_moveForward p sensors, execute_moveBackward p sensors, ?_, ?_, ?_, ?_⟩
  · intro q hq
    rw [execute_moveForward] at hq
    split at hq
    · simp at hq
    · injection hq with hpq
      exact hpq.symm
  · intro q hq
    rw [execute_moveBackward] at hq
    split at hq
    · simp at hq
    · injection hq with hpq
      exact hpq.symm
  · intro q hq
    rw [execute_moveForward] at hq
    split at hq
    next hall =>
      injection hq with hpq
      exact ⟨hpq.symm, by rw [← hpq]; exact hall⟩
    next =>
      simp at hq
  · intro q hq
    rw [execute_moveBackward] at hq
    split at hq
    next hall =>
      injection hq with hpq
      exact ⟨hpq.symm, by rw [← hpq]; exact hall⟩
    next =>
      simp at hq

/-- Witness for `move_actions_atomic` at the origin facing north with an
all-safe sensor. -/
theorem move_actions_atomic_witness :
    (Action.execute Action.moveForward ⟨⟨0, 0⟩, Direction.NORTH⟩ [fun _ _ => true] =
      if (List.all [fun _ _ => true]
            fun sensor => ((⟨⟨0, 0⟩, Direction.NORTH⟩ : Position).go_forward).is_safe sensor) then
        ExecResult.ok (⟨⟨0, 0⟩, Direction.NORTH⟩ : Position).go_forward
      else
        ExecResult.danger ⟨⟨0, 0⟩, Direction.NORTH⟩)
    ∧ (Action.execute Action.moveBackward ⟨⟨0, 0⟩, Direction.NORTH⟩ [fun _ _ => true] =
      if (List.all [fun _ _ => true]
            fun sensor =>
              ((((((⟨⟨0, 0⟩, Direction.NORTH⟩ : Position).turn_right).turn_right).go_forward).turn_right).turn_right).is_safe
                sensor) then
        ExecResult.ok
          (((((⟨⟨0, 0⟩, Direction.NORTH⟩ : Position).turn_right).turn_right).go_forward).turn_right).turn_right
      else
        ExecResult.danger ⟨⟨0, 0⟩, Direction.NORTH⟩)
    ∧ (∀ q, Action.execute Action.moveForward ⟨⟨0, 0⟩, Direction.NORTH⟩ [fun _ _ => true] =
        ExecResult.danger q → q = ⟨⟨0, 0⟩, Direction.NORTH⟩)
    ∧ (∀ q, Action.execute Action.moveBackward ⟨⟨0, 0⟩, Direction.NORTH⟩ [fun _ _ => true] =
        ExecResult.danger q → q = ⟨⟨0, 0⟩, Direction.NORTH⟩)
    ∧ (∀ q, Action.execute Action.moveForward ⟨⟨0, 0⟩, Direction.NORTH⟩ [fun _ _ => true] =
        ExecResult.ok q →
        q = (⟨⟨0, 0⟩, Direction.NORTH⟩ : Position).go_forward
          ∧ (List.all [fun _ _ => true] fun sensor => q.is_safe sensor) = true)
    ∧ (∀ q, Action.execute Action.moveBackward ⟨⟨0, 0⟩, Direction.NORTH⟩ [fun _ _ => true] =
        ExecResult.ok q →
        q = (((((⟨⟨0, 0⟩, Direction.NORTH⟩ : Position).turn_right).turn_right).go_forward).turn_right).turn_right
          ∧ (List.all [fun _ _ => true] fun sensor => q.is_safe sensor) = true) :=
  move_actions_atomic ⟨⟨0, 0⟩, Direction.NORTH⟩ [fun _ _ => true]

/-- Claim C4: `Compose` applies its children in order to the same position; a
child's `DangerousField` propagates immediately with the position produced so
far, later children are never evaluated, and the empty composition succeeds
with the position unchanged. -/
theorem compose_fail_fast (a : Action) (rest : List Action) (p q : Position)
    (sensors : sensors_t) :
    Action.execute (Action.compose []) p sensors = ExecResult.ok p
    ∧ (Action.execute a p sensors = ExecResult.ok q →
        Action.execute (Action.compose (a :: rest)) p sensors =
          Action.execute (Action.compose rest) q sensors)
    ∧ (Action.execute a p sensors = ExecResult.danger q →
        Action.execute (Action.compose (a :: rest)) p sensors = ExecResult.danger q) := by
  refine ⟨by rw [execute_compose, executeList_nil], ?_, ?_⟩ <;> intro h <;>
    simp [execute_compose, executeList_cons, h]

/-- Witness for `compose_fail_fast`: a one-step rotation prefix at the origin. -/
theorem compose_fail_fast_witness :
    Action.execute (Action.compose []) ⟨⟨0, 0⟩, Direction.NORTH⟩ [] =
        ExecResult.ok ⟨⟨0, 0⟩, Direction.NORTH⟩
    ∧ (Action.execute Action.rotateRight ⟨⟨0, 0⟩, Direction.NORTH⟩ [] =
          ExecResult.ok ⟨⟨0, 0⟩, Direction.EAST⟩ →
        Action.execute (Action.compose [Action.rotateRight]) ⟨⟨0, 0⟩, Direction.NORTH⟩ [] =
          Action.execute (Action.compose []) ⟨⟨0, 0⟩, Direction.EAST⟩ [])
    ∧ (Action.execute Action.rotateRight ⟨⟨0, 0⟩, Direction.NORTH⟩ [] =
          ExecResult.danger ⟨⟨0, 0⟩, Direction.EAST⟩ →
        Action.execute (Action.compose [Action.rotateRight]) ⟨⟨0, 0⟩, Direction.NORTH⟩ [] =
          ExecResult.danger ⟨⟨0, 0⟩, Direction.EAST⟩) :=
  compose_fail_fast Action.rotateRight [] ⟨⟨0, 0⟩, Direction.NORTH⟩ ⟨⟨0, 0⟩, Direction.EAST⟩ []

/-- Claim C9: coordinate translation is pure componentwise addition of 32-bit signed
integers: each component of the sum is congruent to the exact sum modulo 2^32,
lies in the `int32_t` range, and equals the exact sum whenever that sum fits
in the range; there is no failure mode. -/
theorem translate_componentwise_wrap (x y dx dy : Int) :
    ((Coordinates.add ⟨x, y⟩ ⟨dx, dy⟩).x - (x + dx)) % 2 ^ 32 = 0
    ∧ ((Coordinates.add ⟨x, y⟩ ⟨dx, dy⟩).y - (y + dy)) % 2 ^ 32 = 0
    ∧ -(2 ^ 31) ≤ (Coordinates.add ⟨x, y⟩ ⟨dx, dy⟩).x
    ∧ (Coordinates.add ⟨x, y⟩ ⟨dx, dy⟩).x < 2 ^ 31
    ∧ -(2 ^ 31) ≤ (Coordinates.add ⟨x, y⟩ ⟨dx, dy⟩).y
    ∧ (Coordinates.add ⟨x, y⟩ ⟨dx, dy⟩).y < 2 ^ 31
    ∧ (-(2 ^ 31) ≤ x + dx → x + dx < 2 ^ 31 → (Coordinates.add ⟨x, y⟩ ⟨dx, dy⟩).x = x + dx)
    ∧ (-(2 ^ 31) ≤ y + dy → y + dy < 2 ^ 31 → (Coordinates.add ⟨x, y⟩ ⟨dx, dy⟩).y = y + dy) := by
  refine ⟨?_, ?_, ?_, ?_, ?_, ?_, ?_, ?_⟩ <;>
    simp only [Coordinates.add, wrap32] <;> omega

/-- Witness for `translate_componentwise_wrap` at a small in-range input. -/
theorem translate_componentwise_wrap_witness :
    ((Coordinates.add ⟨1, 2⟩ ⟨3, 4⟩).x - (1 + 3)) % 2 ^ 32 = 0
    ∧ ((Coordinates.add ⟨1, 2⟩ ⟨3, 4⟩).y - (2 + 4)) % 2 ^ 32 = 0
    ∧ -(2 ^ 31) ≤ (Coordinates.add ⟨1, 2⟩ ⟨3, 4⟩).x
    ∧ (Coordinates.add ⟨1, 2⟩ ⟨3, 4⟩).x < 2 ^ 31
    ∧ -(2 ^ 31) ≤ (Coordinates.add ⟨1, 2⟩ ⟨3, 4⟩).y
    ∧ (Coordinates.add ⟨1, 2⟩ ⟨3, 4⟩).y < 2 ^ 31
    ∧ (-(2 ^ 31) ≤ (1 : Int) + 3 → (1 : Int) + 3 < 2 ^ 31 →
        (Coordinates.add ⟨1, 2⟩ ⟨3, 4⟩).x = 1 + 3)
    ∧ (-(2 ^ 31) ≤ (2 : Int) + 4 → (2 : Int) + 4 < 2 ^ 31 →
        (Coordinates.add ⟨1, 2⟩ ⟨3, 4⟩).y = 2 + 4) :=
  translate_componentwise_wrap 1 2 3 4

/-- Claim C3: calling `execute` on a rover that has not landed fails with
`RoverDidNotLand`, the exception propagates to the caller, and no field of the
rover is mutated. -/
theorem execute_unlanded_no_change (r : Rover) (s : String) (h : r.landed = false) :
    Rover.execute s r = ExecOutcome.didNotLand r
    ∧ (Rover.execute s r).state = r
    ∧ (Rover.execute s r).state.landed = r.landed
    ∧ (Rover.execute s r).state.stopped = r.stopped
    ∧ (Rover.execute s r).state.position = r.position
    ∧ (Rover.execute s r).state.commands = r.commands
    ∧ (Rover.execute s r).state.sensors = r.sensors := by
  have he : Rover.execute s r = ExecOutcome.didNotLand r := by
    simp [Rover.execute, h]
  refine ⟨he, ?_, ?_, ?_, ?_, ?_, ?_⟩ <;> simp [he, ExecOutcome.state]

/-- Witness for `execute_unlanded_no_change` on a freshly built rover. -/
theorem execute_unlanded_no_change_witness :
    Rover.execute "FLR" (Rover.make [('F', Action.moveForward)] []) =
        ExecOutcome.didNotLand (Rover.make [('F', Action.moveForward)] [])
    ∧ (Rover.execute "FLR" (Rover.make [('F', Action.moveForward)] [])).state =
        Rover.make [('F', Action.moveForward)] []
    ∧ (Rover.execute "FLR" (Rover.make [('F', Action.moveForward)] [])).state.landed =
        (Rover.make [('F', Action.moveForward)] []).landed
    ∧ (Rover.execute "FLR" (Rover.make [('F', Action.moveForward)] [])).state.stopped =
        (Rover.make [('F', Action.moveForward)] []).stopped
    ∧ (Rover.execute "FLR" (Rover.make [('F', Action.moveForward)] [])).state.position =
        (Rover.make [('F', Action.moveForward)] []).position
    ∧ (Rover.execute "FLR" (Rover.make [('F', Action.moveForward)] [])).state.commands =
        (Rover.make [('F', Action.moveForward)] []).commands
    ∧ (Rover.execute "FLR" (Rover.make [('F', Action.moveForward)] [])).state.sensors =
        (Rover.make [('F', Action.moveForward)] []).sensors :=
  execute_unlanded_no_change (Rover.make [('F', Action.moveForward)] []) "FLR" rfl

/-- Claim C8: the display of an unlanded rover is exactly `"unknown"`; a landed
rover displays `"(x, y) DIRNAME"` from its current coordinates and direction
name, with `" stopped"` appended exactly when the stopped flag is set; display
is a pure function of the state, so repeated calls agree. -/
theorem display_format (r : Rover) :
    (r.landed = false → Rover.display r = "unknown")
    ∧ (r.landed = true → r.stopped = false →
        Rover.display r =
          "(" ++ toString r.position.coordinates.x ++ ", "
            ++ toString r.position.coordinates.y ++ ")" ++ " "
            ++ DirectionManager.get_name r.position.direction)
    ∧ (r.landed = true → r.stopped = true →
        Rover.display r =
          "(" ++ toString r.position.coordinates.x ++ ", "
            ++ toString r.position.coordinates.y ++ ")" ++ " "
            ++ DirectionManager.get_name r.position.direction ++ " stopped")
    ∧ Rover.display r = Rover.display r := by
  refine ⟨?_, ?_, ?_, rfl⟩
  · intro h
    simp [Rover.display, h]
  · intro h hs
    simp [Rover.display, h, hs, Position.display, Coordinates.display]
  · intro h hs
    simp [Rover.display, h, hs, Position.display, Coordinates.display]

/-- Witness for `display_format` on a landed, not stopped rover at the
origin. -/
theorem display_format_witness :
    ((⟨true, false, ⟨⟨0, 0⟩, Direction.NORTH⟩, [], []⟩ : Rover).landed = false →
        Rover.display ⟨true, false, ⟨⟨0, 0⟩, Direction.NORTH⟩, [], []⟩ = "unknown")
    ∧ ((⟨true, false, ⟨⟨0, 0⟩, Direction.NORTH⟩, [], []⟩ : Rover).landed = true →
        (⟨true, false, ⟨⟨0, 0⟩, Direction.NORTH⟩, [], []⟩ : Rover).stopped = false →
        Rover.display ⟨true, false, ⟨⟨0, 0⟩, Direction.NORTH⟩, [], []⟩ =
          "(" ++ toString (⟨true, false, ⟨⟨0, 0⟩, Direction.NORTH⟩, [], []⟩ :
                Rover).position.coordinates.x ++ ", "
            ++ toString (⟨true, false, ⟨⟨0, 0⟩, Direction.NORTH⟩, [], []⟩ :
                Rover).position.coordinates.y ++ ")" ++ " "
            ++ DirectionManager.get_name (⟨true, false, ⟨⟨0, 0⟩, Direction.NORTH⟩, [], []⟩ :
                Rover).position.direction)
    ∧ ((⟨true, false, ⟨⟨0, 0⟩, Direction.NORTH⟩, [], []⟩ : Rover).landed = true →
        (⟨true, false, ⟨⟨0, 0⟩, Direction.NORTH⟩, [], []⟩ : Rover).stopped = true →
        Rover.display ⟨true, false, ⟨⟨0, 0⟩, Direction.NORTH⟩, [], []⟩ =
          "(" ++ toString (⟨true, false, ⟨⟨0, 0⟩, Direction.NORTH⟩, [], []⟩ :
                Rover).position.coordinates.x ++ ", "
            ++ toString (⟨true, false, ⟨⟨0, 0⟩, Direction.NORTH⟩, [], []⟩ :
                Rover).position.coordinates.y ++ ")" ++ " "
            ++ DirectionManager.get_name (⟨true, false, ⟨⟨0, 0⟩, Direction.NORTH⟩, [], []⟩ :
                Rover).position.direction ++ " stopped")
    ∧ Rover.display ⟨true, false, ⟨⟨0, 0⟩, Direction.NORTH⟩, [], []⟩ =
        Rover.display ⟨true, false, ⟨⟨0, 0⟩, Direction.NORTH⟩, [], []⟩ :=
  display_format ⟨true, false, ⟨⟨0, 0⟩, Direction.NORTH⟩, [], []⟩

/-- Claim C1: on a landed rover `execute` returns normally, first clears the stopped
flag and then interprets the string left to right; the result is landed, and
its stopped flag is clear exactly when every character is bound and its action
succeeds; an unbound character halts at once with the rover unchanged but
stopped, a `DangerousField` halts at once keeping the position the failing
action left behind, and a successful character passes the updated position to
the rest of the string. -/
theorem execute_landed_interpretation (r : Rover) (h : r.landed = true) (s : String)
    (c : Char) (rest : List Char) (r₀ : Rover) (a : Action) (p : Position) :
    Rover.execute s r =
        ExecOutcome.normal (Rover.runCommands s.toList { r with stopped := false })
    ∧ (Rover.runCommands s.toList { r with stopped := false }).landed = true
    ∧ ((Rover.runCommands s.toList { r with stopped := false }).stopped = false ↔
        Rover.runOk s.toList { r with stopped := false } = true)
    ∧ (List.lookup c r₀.commands = none →
        Rover.runCommands (c :: rest) r₀ = { r₀ with stopped := true })
    ∧ (List.lookup c r₀.commands = some a →
        Action.execute a r₀.position r₀.sensors = ExecResult.danger p →
        Rover.runCommands (c :: rest) r₀ = { r₀ with position := p, stopped := true })
    ∧ (List.lookup c r₀.commands = some a →
        Action.execute a r₀.position r₀.sensors = ExecResult.ok p →
        Rover.runCommands (c :: rest) r₀ = Rover.runCommands rest { r₀ with position := p }) := by
  refine ⟨by simp [Rover.execute, h], ?_, ?_, ?_, ?_, ?_⟩
  · rw [runCommands_landed]
    exact h
  · rw [runCommands_stopped]
    cases hok : Rover.runOk s.toList { r with stopped := false } <;> simp
  · intro hl
    simp [Rover.runCommands, hl]
  · intro hl he
    simp [Rover.runCommands, hl, he]
  · intro hl he
    simp [Rover.runCommands, hl, he]

/-- Witness for `execute_landed_interpretation` on a landed rover with a
single bound command. -/
theorem execute_landed_interpretation_witness :
    Rover.execute "F" ⟨true, false, ⟨⟨0, 0⟩, Direction.NORTH⟩, [('F', Action.moveForward)], []⟩ =
        ExecOutcome.normal (Rover.runCommands "F".toList
          { (⟨true, false, ⟨⟨0, 0⟩, Direction.NORTH⟩, [('F', Action.moveForward)], []⟩ : Rover) with
              stopped := false })
    ∧ (Rover.runCommands "F".toList
        { (⟨true, false, ⟨⟨0, 0⟩, Direction.NORTH⟩, [('F', Action.moveForward)], []⟩ : Rover) with
            stopped := false }).landed = true
    ∧ ((Rover.runCommands "F".toList
        { (⟨true, false, ⟨⟨0, 0⟩, Direction.NORTH⟩, [('F', Action.moveForward)], []⟩ : Rover) with
            stopped := false }).stopped = false ↔
        Rover.runOk "F".toList
          { (⟨true, false, ⟨⟨0, 0⟩, Direction.NORTH⟩, [('F', Action.moveForward)], []⟩ : Rover) with
              stopped := false } = true)
    ∧ (List.lookup 'F'
          (⟨true, false, ⟨⟨0, 0⟩, Direction.NORTH⟩, [('F', Action.moveForward)], []⟩ : Rover).commands = none →
        Rover.runCommands ['F']
            (⟨true, false, ⟨⟨0, 0⟩, Direction.NORTH⟩, [('F', Action.moveForward)], []⟩ : Rover) =
          { (⟨true, false, ⟨⟨0, 0⟩, Direction.NORTH⟩, [('F', Action.moveForward)], []⟩ : Rover) with
              stopped := true })
    ∧ (List.lookup 'F'
          (⟨true, false, ⟨⟨0, 0⟩, Direction.NORTH⟩, [('F', Action.moveForward)], []⟩ : Rover).commands =
          some Action.moveForward →
        Action.execute Action.moveForward
            (⟨true, false, ⟨⟨0, 0⟩, Direction.NORTH⟩, [('F', Action.moveForward)], []⟩ : Rover).position
            (⟨true, false, ⟨⟨0, 0⟩, Direction.NORTH⟩, [('F', Action.moveForward)], []⟩ : Rover).sensors =
          ExecResult.danger ⟨⟨0, 1⟩, Direction.NORTH⟩ →
        Rover.runCommands ['F']
            (⟨true, false, ⟨⟨0, 0⟩, Direction.NORTH⟩, [('F', Action.moveForward)], []⟩ : Rover) =
          { (⟨true, false, ⟨⟨0, 0⟩, Direction.NORTH⟩, [('F', Action.moveForward)], []⟩ : Rover) with
              position := ⟨⟨0, 1⟩, Direction.NORTH⟩, stopped := true })
    ∧ (List.lookup 'F'
          (⟨true, false, ⟨⟨0, 0⟩, Direction.NORTH⟩, [('F', Action.moveForward)], []⟩ : Rover).commands =
          some Action.moveForward →
        Action.execute Action.moveForward
            (⟨true, false, ⟨⟨0, 0⟩, Direction.NORTH⟩, [('F', Action.moveForward)], []⟩ : Rover).position
            (⟨true, false, ⟨⟨0, 0⟩, Direction.NORTH⟩, [('F', Action.moveForward)], []⟩ : Rover).sensors =
          ExecResult.ok ⟨⟨0, 1⟩, Direction.NORTH⟩ →
        Rover.runCommands ['F']
            (⟨true, false, ⟨⟨0, 0⟩, Direction.NORTH⟩, [('F', Action.moveForward)], []⟩ : Rover) =
          Rover.runCommands []
            { (⟨true, false, ⟨⟨0, 0⟩, Direction.NORTH⟩, [('F', Action.moveForward)], []⟩ : Rover) with
                position := ⟨⟨0, 1⟩, Direction.NORTH⟩ }) :=
  execute_landed_interpretation
    ⟨true, false, ⟨⟨0, 0⟩, Direction.NORTH⟩, [('F', Action.moveForward)], []⟩ rfl "F" 'F' []
    ⟨true, false, ⟨⟨0, 0⟩, Direction.NORTH⟩, [('F', Action.moveForward)], []⟩ Action.moveForward
    ⟨⟨0, 1⟩, Direction.NORTH⟩

/-- Counterexample to C1 as stated: a landed rover at the origin whose only
command `C` is `Compose [MoveForward, MoveForward]`, with a sensor that allows
only `y ≤ 1`.  Executing `"C"` halts on `DangerousField` with no command
successfully applied, yet the rover ends at `(0, 1)`, not at the starting
position `(0, 0)`: the partially executed `Compose` left its first child's
effect behind. -/
theorem execute_position_after_partial_compose_cex :
    (Rover.execute "C"
        ⟨true, false, ⟨⟨0, 0⟩, Direction.NORTH⟩,
          [('C', Action.compose [Action.moveForward, Action.moveForward])],
          [fun _ y => y ≤ 1]⟩).state.position = ⟨⟨0, 1⟩, Direction.NORTH⟩
    ∧ (Rover.execute "C"
        ⟨true, false, ⟨⟨0, 0⟩, Direction.NORTH⟩,
          [('C', Action.compose [Action.moveForward, Action.moveForward])],
          [fun _ y => y ≤ 1]⟩).state.stopped = true
    ∧ Rover.runOk "C".toList
        ⟨true, false, ⟨⟨0, 0⟩, Direction.NORTH⟩,
          [('C', Action.compose [Action.moveForward, Action.moveForward])],
          [fun _ y => y ≤ 1]⟩ = false
    ∧ Action.execute (Action.compose [Action.moveForward, Action.moveForward])
        ⟨⟨0, 0⟩, Direction.NORTH⟩ [fun _ y => y ≤ 1] =
        ExecResult.danger ⟨⟨0, 1⟩, Direction.NORTH⟩
    ∧ (⟨⟨0, 1⟩, Direction.NORTH⟩ : Position) ≠ ⟨⟨0, 0⟩, Direction.NORTH⟩ := by
  refine ⟨?_, ?_, ?_, ?_, by decide⟩ <;> decide

/-- Claim C10: the landed flag is monotone: false at construction, set by `land`,
and preserved by every public call in any sequence; once landed the display
never returns `"unknown"` again. -/
theorem landed_monotone (cmds : commands_t) (sens : sensors_t) (c : Coordinates)
    (d : Direction) (r₀ r : Rover) (ops : List RoverOp) (h : r.landed = true) :
    (Rover.make cmds sens).landed = false
    ∧ (Rover.land c d r₀).landed = true
    ∧ (RoverOp.applyAll ops r).landed = true
    ∧ Rover.display (RoverOp.applyAll ops r) ≠ "unknown" := by
  have key : ∀ (ops : List RoverOp) (r : Rover), r.landed = true →
      (RoverOp.applyAll ops r).landed = true := by
    intro ops
    induction ops with
    | nil =>
      intro r hr
      exact hr
    | cons op rest ih =>
      intro r hr
      simp only [RoverOp.applyAll]
      apply ih
      cases op with
      | land cc dd => rfl
      | exec str =>
        simp [RoverOp.apply, Rover.execute, hr, ExecOutcome.state, runCommands_landed]
  exact ⟨rfl, rfl, key ops r h, display_ne_unknown _ (key ops r h)⟩

/-- Witness for `landed_monotone` on a landed rover put through an `execute`
call with an unbound command. -/
theorem landed_monotone_witness :
    (Rover.make [] []).landed = false
    ∧ (Rover.land ⟨0, 0⟩ Direction.NORTH (Rover.make [] [])).landed = true
    ∧ (RoverOp.applyAll [RoverOp.exec "Z"]
        ⟨true, false, ⟨⟨0, 0⟩, Direction.NORTH⟩, [], []⟩).landed = true
    ∧ Rover.display (RoverOp.applyAll [RoverOp.exec "Z"]
        ⟨true, false, ⟨⟨0, 0⟩, Direction.NORTH⟩, [], []⟩) ≠ "unknown" :=
  landed_monotone [] [] ⟨0, 0⟩ Direction.NORTH (Rover.make [] [])
    ⟨true, false, ⟨⟨0, 0⟩, Direction.NORTH⟩, [], []⟩ [RoverOp.exec "Z"] rfl

end RoverModel
